import Mathlib

set_option maxHeartbeats 1000000

/-!
Verification of the basalt TUI note browser/editor: a shallow embedding of the
pane-coordination state machine and the node-scoped document editing engine
(src/basalt/src/note_editor/state.rs, src/basalt/src/app.rs,
src/basalt/src/help_modal.rs, src/basalt/src/command.rs).

Document text is modelled as `List Char`; the source's byte ranges coincide with
character indices for the ASCII documents used in the concrete scenarios.
Rust `usize` arithmetic appears only as `saturating_sub`/`saturating_add`
followed by clamping, which `Nat` subtraction and addition model exactly at the
sizes that occur here.
-/

namespace Basalt

/-- Document text, modelled as a list of characters. -/
abbrev Str := List Char

/-- A half-open source range `start..stop` into the raw document text
(Rust `Range<usize>`; `end` is a Lean keyword, so the field is `stop`). -/
structure SourceRange where
  start : Nat
  stop : Nat
  deriving DecidableEq, Repr

/-- Discriminated kind of a parsed block, sufficient for outline display. -/
inductive NodeKind where
  | heading
  | paragraph
  deriving DecidableEq, Repr

/-- A parsed Markdown block (`markdown_parser::Node`): a structural unit with a
byte range into the raw document string. -/
structure Node where
  kind : NodeKind
  source_range : SourceRange
  deriving DecidableEq, Repr

/-- True when a line consists only of whitespace. -/
def lineIsBlank (l : Str) : Bool := l.all (fun c => c.isWhitespace)

/-- True when a line opens a heading block (starts with `#`). -/
def lineIsHeading (l : Str) : Bool :=
  match l with
  | '#' :: _ => true
  | _ => false

/-- Pairs each line (split on newline) with its start offset and whether it is
terminated by a newline character (every piece but the last one is). -/
def linesWithPos : Nat → List Str → List (Nat × Str × Bool)
  | _, [] => []
  | i, [l] => [(i, l, false)]
  | i, l :: ls => (i, l, true) :: linesWithPos (i + l.length + 1) ls

/-- End offset of a positioned line, including its newline terminator. -/
def lineStop (e : Nat × Str × Bool) : Nat :=
  e.1 + e.2.1.length + (if e.2.2 then 1 else 0)

/-- Whether a positioned line continues a paragraph block. -/
def continuesParagraph (e : Nat × Str × Bool) : Bool :=
  !(lineIsBlank e.2.1) && !(lineIsHeading e.2.1)

/-- Groups positioned lines into blocks; the fuel is an upper bound on the
number of lines and makes the recursion structural. -/
def buildNodes : Nat → List (Nat × Str × Bool) → List Node
  | 0, _ => []
  | _ + 1, [] => []
  | fuel + 1, (p, l, nl) :: rest =>
    if lineIsBlank l then buildNodes fuel rest
    else if lineIsHeading l then
      { kind := .heading, source_range := ⟨p, lineStop (p, l, nl)⟩ } :: buildNodes fuel rest
    else
      let para := (p, l, nl) :: rest.takeWhile continuesParagraph
      let last := para.getLastD (p, l, nl)
      { kind := .paragraph, source_range := ⟨p, lineStop last⟩ } ::
        buildNodes fuel (rest.dropWhile continuesParagraph)

/-- Modelled from the spec: the external Markdown parser
(`markdown_parser::from_str`, module not under src/). Spec contract: a
deterministic, total function from a raw string to an ordered list of blocks,
each carrying a byte range into the string and a kind sufficient for outline
display; heading lines form heading blocks, maximal runs of other non-blank
lines form paragraph blocks, blank lines separate blocks, and a block's range
covers its lines including each line's newline terminator. -/
def markdown_from_str (content : Str) : List Node :=
  let pieces := content.splitOn '\n'
  buildNodes pieces.length (linesWithPos 0 pieces)

/-- Rust `str::lines().count()`: pieces between newlines, where a trailing
newline does not open a further empty line. -/
def rustLinesCount (s : Str) : Nat :=
  let pieces := s.splitOn '\n'
  pieces.length - (if pieces.getLastD [] = [] then 1 else 0)

/-- Rust slice `content[r.start..r.stop]`. -/
def sliceRange (content : Str) (r : SourceRange) : Str :=
  (content.drop r.start).take (r.stop - r.start)

/-- Editor interaction mode (note_editor/state.rs `Mode`). -/
inductive Mode where
  | Read
  | View
  | Edit
  deriving DecidableEq, Repr

/-- Modelled from the spec: the per-block editable text buffer
(note_editor/text_buffer.rs, not under src/). It holds the textual content of
exactly one block, re-seeded from the slice of the current block's source
range, plus its own cursor position. -/
structure TextBuffer where
  text : Str
  cursor_row : Nat
  cursor_col : Nat
  deriving DecidableEq, Repr

/-- Lines of the buffer, as the generic text widget sees them. -/
def bufferLines (b : TextBuffer) : List Str := b.text.splitOn '\n'

/-- Modelled from the spec: cursor move to the bottom line of the buffer. -/
def cursorMoveBottom (b : TextBuffer) : TextBuffer :=
  let ls := bufferLines b
  { b with cursor_row := ls.length - 1, cursor_col := min b.cursor_col (ls.getLastD []).length }

/-- Modelled from the spec: cursor move to the top line of the buffer. -/
def cursorMoveTop (b : TextBuffer) : TextBuffer :=
  { b with cursor_row := 0 }

/-- Modelled from the spec: cursor move one line up inside the buffer. -/
def cursorMoveUp (b : TextBuffer) : TextBuffer :=
  { b with cursor_row := b.cursor_row - 1 }

/-- Modelled from the spec: cursor move one line down inside the buffer. -/
def cursorMoveDown (b : TextBuffer) : TextBuffer :=
  { b with cursor_row := min (b.cursor_row + 1) ((bufferLines b).length - 1) }

/-- Modelled from the spec: a backspace applied inside the buffer (deletes the
character before the cursor, joining lines at a line start). -/
def bufferBackspace (b : TextBuffer) : TextBuffer :=
  let ls := bufferLines b
  if 0 < b.cursor_col then
    let line := ls.getD b.cursor_row []
    let line2 := line.take (b.cursor_col - 1) ++ line.drop b.cursor_col
    { b with text := List.intercalate ['\n'] (ls.set b.cursor_row line2),
             cursor_col := b.cursor_col - 1 }
  else if 0 < b.cursor_row then
    let prev := ls.getD (b.cursor_row - 1) []
    let cur := ls.getD b.cursor_row []
    { text := List.intercalate ['\n']
        ((ls.take (b.cursor_row - 1)) ++ [prev ++ cur] ++ ls.drop (b.cursor_row + 1)),
      cursor_row := b.cursor_row - 1,
      cursor_col := prev.length }
  else b

/-- The editor state (note_editor/state.rs `EditorState`). The note's file path
and the ratatui `ScrollbarState` are external resources and are not part of the
model; `scrollbar_position` keeps the scroll offset. -/
structure EditorState where
  mode : Mode
  text_buffer : TextBuffer
  content : Str
  content_original : Str
  nodes : List Node
  scrollbar_position : Nat
  current_row : Nat
  active : Bool
  modified : Bool
  dirty : Bool
  deriving DecidableEq, Repr

namespace EditorState

/-- `EditorState::new`: parses the content and snapshots it; remaining fields
take their defaults. -/
def new (content : Str) : EditorState :=
  { mode := .Read
    text_buffer := ⟨[], 0, 0⟩
    content := content
    content_original := content
    nodes := markdown_from_str content
    scrollbar_position := 0
    current_row := 0
    active := false
    modified := false
    dirty := false }

/-- `EditorState::is_editing`. -/
def is_editing (s : EditorState) : Bool := s.mode == Mode.Edit

/-- `EditorState::set_row`. -/
def set_row (s : EditorState) (row : Nat) : EditorState :=
  { s with current_row := row }

/-- `EditorState::set_mode`. -/
def set_mode (s : EditorState) (mode : Mode) : EditorState :=
  { s with mode := mode }

/-- `EditorState::update_text_buffer`: reseeds the buffer from the slice of the
current block's source range, keeping the cursor position. -/
def update_text_buffer (s : EditorState) : EditorState :=
  match s.nodes[s.current_row]? with
  | none => s
  | some node =>
    { s with text_buffer :=
        { text := sliceRange s.content node.source_range
          cursor_row := s.text_buffer.cursor_row
          cursor_col := s.text_buffer.cursor_col } }

/-- `EditorState::update_text_buffer_content`: prepends the given content above
the existing buffer text and places the cursor below it. -/
def update_text_buffer_content (s : EditorState) (content : Str) : EditorState :=
  { s with text_buffer :=
      { text := content ++ '\n' :: s.text_buffer.text
        cursor_row := rustLinesCount content + 1
        cursor_col := s.text_buffer.cursor_col } }

/-- `EditorState::intermediate_save` (reconciliation): rejoins the unaffected
prefix, the buffer text and the unaffected suffix with newline separators;
when the result differs from the current content, reparses and replaces it,
then recomputes the modified flag. -/
def intermediate_save (s : EditorState) : EditorState :=
  match s.nodes[s.current_row]? with
  | none => s
  | some node =>
    let start := node.source_range.start
    let stop := node.source_range.stop
    let str_start := s.content.take (start - 1)
    let str_end := s.content.drop stop
    let modified_str := s.text_buffer.text
    let complete_modified_content := str_start ++ '\n' :: modified_str ++ '\n' :: str_end
    let s1 :=
      if s.content ≠ complete_modified_content then
        update_text_buffer
          { s with nodes := markdown_from_str complete_modified_content
                   content := complete_modified_content }
      else s
    { s1 with modified := decide (s1.content ≠ s1.content_original) }

/-- `EditorState::exit_insert`. -/
def exit_insert (s : EditorState) : EditorState := intermediate_save s

/-- `EditorState::delete_char`: plain resync when the buffer is blank at (0,0);
merge into the previous block at (0,0) otherwise (when one exists); plain
backspace inside the buffer in every other position. -/
def delete_char (s : EditorState) : EditorState :=
  if s.text_buffer.cursor_row = 0 ∧ s.text_buffer.cursor_col = 0 ∧
      lineIsBlank s.text_buffer.text then
    intermediate_save s
  else if s.text_buffer.cursor_row = 0 ∧ s.text_buffer.cursor_col = 0 ∧
      s.current_row ≠ 0 then
    match s.nodes[s.current_row]? with
    | none => s
    | some cur =>
      match s.nodes[s.current_row - 1]? with
      | none => s
      | some prev =>
        let prevContent := sliceRange s.content prev.source_range
        let prevUpdated : Node :=
          { prev with source_range := ⟨prev.source_range.start, cur.source_range.stop⟩ }
        let nodesUpdated :=
          (s.nodes.set (s.current_row - 1) prevUpdated).eraseIdx s.current_row
        let s1 := update_text_buffer_content s prevContent
        { s1 with nodes := nodesUpdated
                  current_row := s.current_row - 1
                  dirty := true }
  else
    { s with dirty := true, text_buffer := bufferBackspace s.text_buffer }

/-- `EditorState::cursor_up`: moves inside the buffer unless at its first row;
at the first row, reconciles a pending edit and steps to the previous block. -/
def cursor_up (s : EditorState) : EditorState :=
  if s.text_buffer.cursor_row = 0 then
    let s1 := if s.dirty then { intermediate_save s with dirty := false } else s
    if s1.current_row = 0 then s1
    else
      let s2 := update_text_buffer { s1 with current_row := s1.current_row - 1 }
      { s2 with text_buffer := cursorMoveBottom s2.text_buffer }
  else
    { s with text_buffer := cursorMoveUp s.text_buffer }

/-- `EditorState::cursor_down`: moves inside the buffer unless at its last row;
at the last row, reconciles a pending edit and steps to the next block,
clamping `current_row` to the last block index. -/
def cursor_down (s : EditorState) : EditorState :=
  if s.text_buffer.cursor_row < (bufferLines s.text_buffer).length - 1 then
    { s with text_buffer := cursorMoveDown s.text_buffer }
  else
    let s1 := if s.dirty then { intermediate_save s with dirty := false } else s
    let nodes_amount := s1.nodes.length
    if s1.current_row = nodes_amount - 1 then s1
    else
      let s2 := update_text_buffer
        { s1 with current_row := min (s1.current_row + 1) (s1.nodes.length - 1) }
      { s2 with text_buffer := cursorMoveTop s2.text_buffer }

/-- `EditorState::save_modified_to_file`: `File::create` followed by
`write_all`, with the combined file-system outcome modelled by `fsOk`; the
modified flag is cleared only after both succeed, an early error leaves the
state untouched. The second component records that the write path ran. -/
def save_modified_to_file (s : EditorState) (fsOk : Bool) : EditorState × Bool :=
  if fsOk then ({ s with modified := false }, true) else (s, false)

/-- `EditorState::save`: returns immediately without touching the file when the
modified flag is clear; otherwise runs the write path and swallows its error.
The second component records whether a file write was attempted. -/
def save (s : EditorState) (fsOk : Bool) : EditorState × Bool :=
  if s.modified = false then (s, false)
  else ((save_modified_to_file s fsOk).1, true)

end EditorState

/-- Invariant from the spec data model: whenever `nodes` is non-empty,
`current_row` indexes into it. -/
def rowInvariant (s : EditorState) : Prop :=
  s.nodes ≠ [] → s.current_row < s.nodes.length

/-- Help modal state (help_modal.rs `HelpModalState`); the ratatui
`ScrollbarState` mirror is external and not part of the model. -/
structure HelpModalState where
  scrollbar_position : Nat
  text : Str
  visible : Bool
  deriving DecidableEq, Repr

namespace HelpModalState

/-- `HelpModalState::new`: starts hidden at position 0. -/
def new (text : Str) : HelpModalState :=
  { scrollbar_position := 0, text := text, visible := false }

/-- `HelpModalState::toggle_visibility`. -/
def toggle_visibility (st : HelpModalState) : HelpModalState :=
  { st with visible := !st.visible }

/-- `HelpModalState::hide`. -/
def hide (st : HelpModalState) : HelpModalState :=
  { st with visible := false }

/-- `HelpModalState::scroll_up`: saturating subtraction of the amount. -/
def scroll_up (st : HelpModalState) (amount : Nat) : HelpModalState :=
  { st with scrollbar_position := st.scrollbar_position - amount }

/-- `HelpModalState::scroll_down`: saturating addition clamped to the number of
lines of the modal text. -/
def scroll_down (st : HelpModalState) (amount : Nat) : HelpModalState :=
  { st with
      scrollbar_position := min (st.scrollbar_position + amount) (rustLinesCount st.text) }

end HelpModalState

/-- One call of the help modal scroll interface, with an arbitrary amount. -/
inductive HelpScrollOp where
  | up (amount : Nat)
  | down (amount : Nat)
  deriving DecidableEq, Repr

/-- Applies one scroll call to the help modal state. -/
def applyHelpScroll (st : HelpModalState) (op : HelpScrollOp) : HelpModalState :=
  match op with
  | .up a => st.scroll_up a
  | .down a => st.scroll_down a

/-- Applies a sequence of scroll calls to the help modal state. -/
def applyHelpScrolls (st : HelpModalState) (ops : List HelpScrollOp) : HelpModalState :=
  ops.foldl applyHelpScroll st

/-- Splash modal state: only the visibility flag matters for focus routing
(splash_modal.rs `SplashModalState`; the vault selector list it wraps is not
needed here). -/
structure SplashModalState where
  visible : Bool
  deriving DecidableEq, Repr

/-- Vault selector modal state: only the visibility flag matters for focus
routing. -/
structure VaultSelectorModalState where
  visible : Bool
  deriving DecidableEq, Repr

/-- The focusable components (app.rs `ActivePane`). -/
inductive ActivePane where
  | Splash
  | Explorer
  | NoteEditor
  | Outline
  | HelpModal
  | VaultSelectorModal
  deriving DecidableEq, Repr

/-- The application state root, restricted to the fields the focus router and
key routing read (app.rs `AppState`). -/
structure AppState where
  active_pane : ActivePane
  note_editor : EditorState
  splash_modal : SplashModalState
  help_modal : HelpModalState
  vault_selector_modal : VaultSelectorModalState

/-- `AppState::active_component`: a visible modal outranks the stored active
pane, help modal first, then vault selector, then splash. -/
def active_component (s : AppState) : ActivePane :=
  if s.help_modal.visible then ActivePane.HelpModal
  else if s.vault_selector_modal.visible then ActivePane.VaultSelectorModal
  else if s.splash_modal.visible then ActivePane.Splash
  else s.active_pane

/-- Key codes (the crossterm `KeyCode` variants the source matches on, plus a
catch-all for the remaining variants). -/
inductive KeyCode where
  | up
  | down
  | esc
  | backspace
  | enter
  | tab
  | char (c : Char)
  | f (n : Nat)
  | other (n : Nat)
  deriving DecidableEq, Repr

/-- A key press event (crossterm `KeyEvent`, modifiers flattened to flags). -/
structure KeyEvent where
  code : KeyCode
  ctrl : Bool
  alt : Bool
  shift : Bool
  deriving DecidableEq, Repr

/-- Scroll step messages (app.rs `ScrollAmount`). -/
inductive ScrollAmount where
  | One
  | HalfPage
  deriving DecidableEq, Repr

/-- Note editor pane messages (note_editor.rs `Message`). -/
inductive NoteEditorMsg where
  | Save
  | SwitchPaneNext
  | SwitchPanePrevious
  | ToggleExplorer
  | ToggleOutline
  | EditMode
  | ExitMode
  | ReadMode
  | KeyEvent (k : KeyEvent)
  | CursorUp
  | CursorLeft
  | CursorRight
  | CursorWordForward
  | CursorWordBackward
  | CursorDown
  | ScrollUp (a : ScrollAmount)
  | ScrollDown (a : ScrollAmount)
  | SetRow (row : Nat)
  | Delete
  deriving DecidableEq, Repr

/-- Splash modal messages (app.rs `splash::Message`). -/
inductive SplashMsg where
  | Up
  | Down
  | Open
  deriving DecidableEq, Repr

/-- Explorer pane messages (app.rs `explorer::Message`). -/
inductive ExplorerMsg where
  | Up
  | Down
  | Open
  | Sort
  | Toggle
  | ToggleOutline
  | SwitchPaneNext
  | SwitchPanePrevious
  | ScrollUp (a : ScrollAmount)
  | ScrollDown (a : ScrollAmount)
  deriving DecidableEq, Repr

/-- Outline pane messages (app.rs `outline::Message`). -/
inductive OutlineMsg where
  | Up
  | Down
  | Select
  | Expand
  | Toggle
  | ToggleExplorer
  | SwitchPaneNext
  | SwitchPanePrevious
  deriving DecidableEq, Repr

/-- Help modal messages (app.rs `help_modal::Message`). -/
inductive HelpModalMsg where
  | Toggle
  | Close
  | ScrollUp (a : ScrollAmount)
  | ScrollDown (a : ScrollAmount)
  deriving DecidableEq, Repr

/-- Vault selector modal messages (app.rs `vault_selector_modal::Message`). -/
inductive VaultSelectorModalMsg where
  | Toggle
  | Up
  | Down
  | Select
  | Close
  deriving DecidableEq, Repr

/-- Top level semantic messages (app.rs `Message`; `Resize` carries an external
terminal size and is not needed by the routing claims). -/
inductive AppMsg where
  | Quit
  | Splash (m : SplashMsg)
  | Explorer (m : ExplorerMsg)
  | NoteEditor (m : NoteEditorMsg)
  | Outline (m : OutlineMsg)
  | HelpModal (m : HelpModalMsg)
  | VaultSelectorModal (m : VaultSelectorModalMsg)
  deriving DecidableEq, Repr

/-- `note_editor::handle_editing_event` (app.rs): while editing, arrow keys,
escape and backspace map to structured messages and every other key falls
through to a raw `KeyEvent` message. -/
def handle_editing_event (k : KeyEvent) : Option NoteEditorMsg :=
  match k.code with
  | .up => some .CursorUp
  | .down => some .CursorDown
  | .esc => some .ExitMode
  | .backspace => some .Delete
  | _ => some (.KeyEvent k)

/-- The configured key binding tables, one resolver per scope
(config.rs `Config`, consumed through `key_to_message`; the tables themselves
come from the external configuration file, so each scope is an abstract
resolver function). -/
structure KeyConfig where
  global : KeyEvent → Option AppMsg
  splash : KeyEvent → Option AppMsg
  explorer : KeyEvent → Option AppMsg
  note_editor : KeyEvent → Option AppMsg
  outline : KeyEvent → Option AppMsg
  help_modal : KeyEvent → Option AppMsg
  vault_selector_modal : KeyEvent → Option AppMsg

/-- `App::handle_active_component_event`: pane-scoped resolution; the note
editor pane in Edit mode uses `handle_editing_event` instead of its table. -/
def handle_active_component_event (cfg : KeyConfig) (st : AppState) (k : KeyEvent)
    (activeComponent : ActivePane) : Option AppMsg :=
  match activeComponent with
  | .Splash => cfg.splash k
  | .Explorer => cfg.explorer k
  | .NoteEditor =>
    if st.note_editor.is_editing then
      (handle_editing_event k).map AppMsg.NoteEditor
    else cfg.note_editor k
  | .Outline => cfg.outline k
  | .HelpModal => cfg.help_modal k
  | .VaultSelectorModal => cfg.vault_selector_modal k

/-- `App::handle_key_event`: a globally bound command wins unless the editor is
in Edit mode; otherwise the active component resolves the key. -/
def handle_key_event (cfg : KeyConfig) (st : AppState) (k : KeyEvent) : Option AppMsg :=
  let global_message := cfg.global k
  if global_message.isSome && !st.note_editor.is_editing then global_message
  else handle_active_component_event cfg st k (active_component st)

/-- Rust `str::replace`: replaces every non-overlapping occurrence of the
pattern, scanning left to right; the fuel bounds the scan by the length of the
subject string. -/
def replaceAllAux : Nat → Str → Str → Str → Str
  | 0, s, _, _ => s
  | _ + 1, [], _, _ => []
  | fuel + 1, c :: cs, pat, rep =>
    if pat ≠ [] ∧ (c :: cs).take pat.length = pat then
      rep ++ replaceAllAux fuel ((c :: cs).drop pat.length) pat rep
    else
      c :: replaceAllAux fuel cs pat rep

/-- Rust `str::replace` (`ReplaceVar::replace_var` in command.rs). -/
def replaceAll (s pat rep : Str) : Str := replaceAllAux s.length s pat rep

/-- The template expansion inside `run_command` (command.rs): `%vault` first,
then `%note_path`, then `%note` — the order keeps the later `%note` pass from
rewriting the `%note_path` placeholder. -/
def run_command_expand (command vault_name note_name note_path : Str) : Str :=
  replaceAll
    (replaceAll
      (replaceAll command ("%vault".toList) vault_name)
      ("%note_path".toList) note_path)
    ("%note".toList) note_name

/-- The `exec:` arm of the `Command` deserializer (command.rs): strips the
`exec:` prefix and keeps the rest as the shell template. -/
def deserialize_exec (s : Str) : Option Str :=
  if s.take 5 = ("exec:".toList) then some (s.drop 5) else none

/-! Concrete states for the scenario claims. -/

/-- The document of the edit scenario, opened in Edit mode on block 1 with the
buffer seeded from that block. -/
def c1_entered : EditorState :=
  EditorState.update_text_buffer
    { EditorState.new ("# A\n\nbody".toList) with mode := .Edit, current_row := 1 }

/-- The scenario state after the buffer text is replaced with `newbody`. -/
def c1_edited : EditorState :=
  { c1_entered with text_buffer := ⟨"newbody".toList, 0, 0⟩ }

/-- The document of the idempotence scenario: block 1 under edit with an
unchanged buffer. -/
def c2_state : EditorState :=
  EditorState.update_text_buffer
    { EditorState.new ("# A\n\nbody".toList) with current_row := 1 }

/-- A state whose rejoined reconciliation output equals its content: the block
is preceded by a newline, the buffer lost only the trailing newline of the
slice, and the document ends in a newline. -/
def c2_wstate : EditorState :=
  { EditorState.new ("# H\nbody\n".toList) with
      current_row := 1, text_buffer := ⟨"body".toList, 0, 0⟩ }

/-- The delete-merge scenario: block 1 of a two-block document, buffer at
(0,0) holding the non-blank block text. -/
def c3_wstate : EditorState :=
  EditorState.update_text_buffer
    { EditorState.new ("# A\n\nbody".toList) with current_row := 1 }

/-- An app state with both the help modal and the vault selector modal
visible. -/
def c4_wstate : AppState :=
  { active_pane := .Explorer
    note_editor := EditorState.new []
    splash_modal := ⟨false⟩
    help_modal := ⟨0, [], true⟩
    vault_selector_modal := ⟨true⟩ }

/-- A modified editor state, for exercising the failing save path. -/
def c5_wstate : EditorState :=
  { EditorState.new ("a".toList) with modified := true }

/-- A key binding configuration with a single global binding. -/
def c7_wcfg : KeyConfig :=
  { global := fun k => if k.code = KeyCode.char 'q' then some AppMsg.Quit else none
    splash := fun _ => none
    explorer := fun _ => none
    note_editor := fun _ => none
    outline := fun _ => none
    help_modal := fun _ => none
    vault_selector_modal := fun _ => none }

/-- An app state focused on the note editor pane while it is in Edit mode. -/
def c7_wstate : AppState :=
  { active_pane := .NoteEditor
    note_editor := { EditorState.new [] with mode := .Edit }
    splash_modal := ⟨false⟩
    help_modal := ⟨0, [], false⟩
    vault_selector_modal := ⟨false⟩ }

/-- A plain character key press. -/
def c7_wkey : KeyEvent := ⟨.char 'x', false, false, false⟩

/-- A two-block document whose second block (a heading) starts at byte 3:
feeding that byte offset into `set_row` leaves `current_row` out of range. -/
def c8_state : EditorState := EditorState.new ("x\n\n# H".toList)

/-- A one-block document for the in-range `set_row` case. -/
def c8_wstate : EditorState := EditorState.new ("# A".toList)

/-- A dirty state on the last block whose pending buffer text reparses to
fewer blocks. -/
def c9_state : EditorState :=
  { EditorState.new ("a\n\nb".toList) with
      current_row := 1, text_buffer := ⟨[], 0, 0⟩, dirty := true }

/-- A clean state on the last row of the last block. -/
def c9_wstate : EditorState :=
  EditorState.update_text_buffer
    { EditorState.new ("# A\n\nbody".toList) with current_row := 1 }

/-- A three-line help text, freshly constructed modal state. -/
def c10_wstate : HelpModalState := HelpModalState.new ("line1\nline2\nline3".toList)

/-! Theorems. -/

/-- `update_text_buffer` reseeds only the buffer; the node list is kept. -/
theorem update_text_buffer_nodes (s : EditorState) :
    (EditorState.update_text_buffer s).nodes = s.nodes := by
  unfold EditorState.update_text_buffer
  split <;> rfl

/-- `update_text_buffer` reseeds only the buffer; the current row is kept. -/
theorem update_text_buffer_current_row (s : EditorState) :
    (EditorState.update_text_buffer s).current_row = s.current_row := by
  unfold EditorState.update_text_buffer
  split <;> rfl

/-- Claim C1 (counterexample): in the scenario on `"# A\n\nbody"`, replacing
block 1 with `newbody` and exiting Edit mode does not produce the content
`"# A\n\nnewbody"` claimed by the spec — the reconciliation join appends a
trailing newline. -/
theorem c1_counterexample :
    (EditorState.new ("# A\n\nbody".toList)).nodes.length = 2 ∧
    (EditorState.exit_insert c1_edited).content ≠ ("# A\n\nnewbody".toList) := by
  decide

/-- Claim C1 (amended): the scenario produces content `"# A\n\nnewbody\n"`
(the join of prefix, buffer and empty suffix adds a final newline) and sets
`modified` to `true`. -/
theorem c1_amended :
    (EditorState.exit_insert c1_edited).content = ("# A\n\nnewbody\n".toList) ∧
    (EditorState.exit_insert c1_edited).modified = true := by
  decide

/-- Claim C2 (counterexample): reconciling a block whose buffer still holds
exactly the raw slice of that block is not a no-op — on `"# A\n\nbody"` at
block 1 the content gains a trailing newline. -/
theorem c2_counterexample :
    c2_state.text_buffer.text =
      sliceRange c2_state.content
        ((c2_state.nodes.getD c2_state.current_row ⟨.paragraph, ⟨0, 0⟩⟩).source_range) ∧
    (EditorState.intermediate_save c2_state).content ≠ c2_state.content := by
  decide

/-- Claim C2 (amended): reconciliation leaves `content` and `nodes`
byte-identical precisely when the rejoined string — unaffected prefix, buffer
text and unaffected suffix joined by single newlines — equals the current
content; the guard in `intermediate_save` then skips the replacement. -/
theorem c2_amended (s : EditorState) (node : Node)
    (hn : s.nodes[s.current_row]? = some node)
    (heq : s.content.take (node.source_range.start - 1) ++
        '\n' :: s.text_buffer.text ++ '\n' :: s.content.drop node.source_range.stop =
        s.content) :
    (EditorState.intermediate_save s).content = s.content ∧
    (EditorState.intermediate_save s).nodes = s.nodes := by
  unfold EditorState.intermediate_save
  rw [hn]
  simp only [heq, ne_eq, not_true_eq_false, if_false, ite_self]
  exact ⟨trivial, trivial⟩

/-- Claim C2 (amended, witness): on `"# H\nbody\n"` at block 1 with buffer
`body`, the rejoin reproduces the content and reconciliation changes
nothing. -/
theorem c2_amended_witness :
    (EditorState.intermediate_save c2_wstate).content = c2_wstate.content ∧
    (EditorState.intermediate_save c2_wstate).nodes = c2_wstate.nodes :=
  c2_amended c2_wstate ⟨.paragraph, ⟨4, 9⟩⟩ (by decide) (by decide)

/-- Claim C4: `active_component` implements the strict modal precedence —
a visible help modal always wins, then the vault selector modal, then the
splash modal, and only then the stored active pane. -/
theorem c4_active_component (s : AppState) :
    (s.help_modal.visible = true → active_component s = ActivePane.HelpModal) ∧
    (s.help_modal.visible = false → s.vault_selector_modal.visible = true →
      active_component s = ActivePane.VaultSelectorModal) ∧
    (s.help_modal.visible = false → s.vault_selector_modal.visible = false →
      s.splash_modal.visible = true → active_component s = ActivePane.Splash) ∧
    (s.help_modal.visible = false → s.vault_selector_modal.visible = false →
      s.splash_modal.visible = false → active_component s = s.active_pane) := by
  refine ⟨?_, ?_, ?_, ?_⟩ <;> intros <;> simp [active_component, *]

/-- Claim C4 (witness): with both the help modal and the vault selector modal
visible, the help modal owns the focus. -/
theorem c4_witness : active_component c4_wstate = ActivePane.HelpModal :=
  (c4_active_component c4_wstate).1 rfl

/-- Claim C5: `save` writes nothing when the modified flag is clear; when it
is set, a write is attempted, the flag is cleared only on file-system success,
and a failure leaves the whole editor state unchanged. -/
theorem c5_save (s : EditorState) (fsOk : Bool) :
    (s.modified = false → EditorState.save s fsOk = (s, false)) ∧
    (s.modified = true → fsOk = true →
      EditorState.save s fsOk = ({ s with modified := false }, true)) ∧
    (s.modified = true → fsOk = false → EditorState.save s fsOk = (s, true)) := by
  refine ⟨?_, ?_, ?_⟩ <;> intros <;>
    simp [EditorState.save, EditorState.save_modified_to_file, *]

/-- Claim C5 (witness): a failing save on a modified state attempts the write
but leaves the state, including `modified`, untouched. -/
theorem c5_witness : EditorState.save c5_wstate false = (c5_wstate, true) :=
  (c5_save c5_wstate false).2.2 rfl rfl

/-- Claim C6: the `exec:` template `"exec:open %note_path"` strips to
`"open %note_path"` and, because `%note_path` is substituted before `%note`,
expands with `note_path = "/vault/a.md"` to exactly `"open /vault/a.md"`. -/
theorem c6_exec_expand :
    deserialize_exec ("exec:open %note_path".toList) = some ("open %note_path".toList) ∧
    run_command_expand ("open %note_path".toList) ("vault".toList) ("a".toList)
      ("/vault/a.md".toList) = ("open /vault/a.md".toList) := by
  decide

/-- Claim C10: starting from any help modal state whose scroll position is in
range, every sequence of `scroll_up`/`scroll_down` calls with arbitrary
amounts keeps `scrollbar_position` at most the line count of the modal text
(and, the position being a saturating natural, it never underflows). -/
theorem c10_scroll_bounds (st : HelpModalState) (ops : List HelpScrollOp)
    (h : st.scrollbar_position ≤ rustLinesCount st.text) :
    (applyHelpScrolls st ops).scrollbar_position ≤
      rustLinesCount (applyHelpScrolls st ops).text := by
  induction ops generalizing st with
  | nil => simpa [applyHelpScrolls] using h
  | cons op rest ih =>
    have hstep : (applyHelpScroll st op).scrollbar_position ≤
        rustLinesCount (applyHelpScroll st op).text := by
      cases op with
      | up a =>
        simp only [applyHelpScroll, HelpModalState.scroll_up]
        exact le_trans (Nat.sub_le _ _) h
      | down a =>
        simp only [applyHelpScroll, HelpModalState.scroll_down]
        exact Nat.min_le_right _ _
    simpa [applyHelpScrolls] using ih _ hstep

/-- Removing an element at a position strictly above an index leaves lookups
at that index unchanged. -/
theorem getElem?_eraseIdx_below {α : Type} :
    ∀ (l : List α) (i j : Nat), j < i → (l.eraseIdx i)[j]? = l[j]?
  | [], _, _, _ => by simp
  | _ :: _, 0, j, h => absurd h (Nat.not_lt_zero j)
  | a :: tl, i + 1, 0, _ => by simp [List.eraseIdx]
  | a :: tl, i + 1, j + 1, h => by
    simp only [List.eraseIdx, List.getElem?_cons_succ]
    exact getElem?_eraseIdx_below tl i j (Nat.lt_of_succ_lt_succ h)

/-- Claim C3: deleting at buffer position (0,0) with a non-blank buffer on a
block that is not the first merges it into the previous block — the node list
shrinks by one, `current_row` steps back by one, and the previous block's
source range is extended to the removed block's end. -/
theorem c3_delete_merge (s : EditorState) (prev cur : Node)
    (hrow : s.text_buffer.cursor_row = 0) (hcol : s.text_buffer.cursor_col = 0)
    (hblank : lineIsBlank s.text_buffer.text = false)
    (hcr : s.current_row ≠ 0)
    (hprev : s.nodes[s.current_row - 1]? = some prev)
    (hcur : s.nodes[s.current_row]? = some cur) :
    (EditorState.delete_char s).nodes.length = s.nodes.length - 1 ∧
    (EditorState.delete_char s).current_row = s.current_row - 1 ∧
    (EditorState.delete_char s).nodes[s.current_row - 1]? =
      some { prev with source_range := ⟨prev.source_range.start, cur.source_range.stop⟩ } := by
  have hlen : s.current_row < s.nodes.length := by
    by_contra hc
    rw [List.getElem?_eq_none (by omega)] at hcur
    exact Option.noConfusion hcur
  have hsub : s.current_row - 1 < s.current_row := Nat.sub_lt (Nat.pos_of_ne_zero hcr) Nat.one_pos
  unfold EditorState.delete_char
  rw [if_neg (by simp [hrow, hcol, hblank]), if_pos ⟨hrow, hcol, hcr⟩, hcur, hprev]
  dsimp only
  refine ⟨?_, rfl, ?_⟩
  · have h1 : s.current_row <
        (s.nodes.set (s.current_row - 1)
          { prev with source_range := ⟨prev.source_range.start, cur.source_range.stop⟩ }).length := by
      rw [List.length_set]; exact hlen
    have h2 := List.length_eraseIdx_add_one h1
    rw [List.length_set] at h2
    omega
  · rw [getElem?_eraseIdx_below _ _ _ hsub]
    exact List.getElem?_set_eq_of_lt _ (by omega)

/-- Claim C3 (witness): on `"# A\n\nbody"` at block 1 with buffer `body` and
cursor (0,0), the merge removes one block, steps back to block 0, and extends
the heading's range to the paragraph's end. -/
theorem c3_witness :
    (EditorState.delete_char c3_wstate).nodes.length = c3_wstate.nodes.length - 1 ∧
    (EditorState.delete_char c3_wstate).current_row = c3_wstate.current_row - 1 ∧
    (EditorState.delete_char c3_wstate).nodes[c3_wstate.current_row - 1]? =
      some ⟨.heading, ⟨0, 9⟩⟩ :=
  c3_delete_merge c3_wstate ⟨.heading, ⟨0, 4⟩⟩ ⟨.paragraph, ⟨5, 9⟩⟩
    (by decide) (by decide) (by decide) (by decide) (by decide) (by decide)

/-- Claim C7: `handle_key_event` gives a globally bound command precedence
unless the editor is in Edit mode; otherwise the active component resolves the
key, and in Edit mode on the note editor pane any key other than Up, Down, Esc
or Backspace becomes the raw `KeyEvent` message (never dropped) that the Edit
arm of the editor update feeds into the active buffer. -/
theorem c7_key_routing (cfg : KeyConfig) (st : AppState) (k : KeyEvent) :
    ((cfg.global k).isSome = true → st.note_editor.mode ≠ Mode.Edit →
      handle_key_event cfg st k = cfg.global k) ∧
    (cfg.global k = none ∨ st.note_editor.mode = Mode.Edit →
      handle_key_event cfg st k =
        handle_active_component_event cfg st k (active_component st)) ∧
    (st.note_editor.mode = Mode.Edit → active_component st = ActivePane.NoteEditor →
      k.code ≠ KeyCode.up → k.code ≠ KeyCode.down → k.code ≠ KeyCode.esc →
      k.code ≠ KeyCode.backspace →
      handle_key_event cfg st k = some (AppMsg.NoteEditor (NoteEditorMsg.KeyEvent k))) := by
  refine ⟨?_, ?_, ?_⟩
  · intro hg hm
    have he : st.note_editor.is_editing = false := by
      simp [EditorState.is_editing, hm]
    simp [handle_key_event, hg, he]
  · intro h
    cases h with
    | inl h => simp [handle_key_event, h]
    | inr h =>
      have he : st.note_editor.is_editing = true := by
        simp [EditorState.is_editing, h]
      simp [handle_key_event, he]
  · intro hm hac h1 h2 h3 h4
    have he : st.note_editor.is_editing = true := by
      simp [EditorState.is_editing, hm]
    simp only [handle_key_event, he, Bool.not_true, Bool.and_false, Bool.false_eq_true,
      if_false, hac, handle_active_component_event, he, if_pos]
    cases hck : k.code <;> simp_all [handle_editing_event]

/-- Claim C7 (witness): with the editor in Edit mode on the note editor pane,
the character key `x` routes to the raw `KeyEvent` message even though a
global table exists. -/
theorem c7_witness :
    handle_key_event c7_wcfg c7_wstate c7_wkey =
      some (AppMsg.NoteEditor (NoteEditorMsg.KeyEvent c7_wkey)) :=
  (c7_key_routing c7_wcfg c7_wstate c7_wkey).2.2 rfl (by decide) (by decide) (by decide)
    (by decide) (by decide)

/-- Claim C8 (counterexample): the row invariant is not preserved by every
editor operation — `set_row` stores its argument unconditionally, and the byte
offset an outline selection passes (here the second block's source start, 3,
in a two-block document) lands `current_row` outside `nodes`. -/
theorem c8_counterexample :
    rowInvariant c8_state ∧
    ¬ rowInvariant
        (EditorState.set_row c8_state
          ((c8_state.nodes.getD 1 ⟨NodeKind.paragraph, ⟨0, 0⟩⟩).source_range.start)) := by
  constructor
  · intro _; decide
  · intro h
    have := h (by decide)
    revert this; decide

/-- The block-advance step at the tail of `cursor_down` re-establishes the row
invariant for any incoming state: either the current row already equals the
last index, or it is clamped to at most the last index. -/
theorem cursor_down_step_invariant (t : EditorState) :
    rowInvariant
      (if t.current_row = t.nodes.length - 1 then t
       else
         { EditorState.update_text_buffer
             { t with current_row := min (t.current_row + 1) (t.nodes.length - 1) } with
           text_buffer :=
             cursorMoveTop (EditorState.update_text_buffer
               { t with current_row := min (t.current_row + 1) (t.nodes.length - 1) }).text_buffer }) := by
  split
  · rename_i heq
    intro hne
    rw [heq]
    exact Nat.sub_lt (List.length_pos.mpr hne) Nat.one_pos
  · intro hne
    have hne2 : ¬ (EditorState.update_text_buffer
        { t with current_row := min (t.current_row + 1) (t.nodes.length - 1) }).nodes = [] := hne
    rw [update_text_buffer_nodes] at hne2
    have hpos : 0 < t.nodes.length := List.length_pos.mpr hne2
    show (EditorState.update_text_buffer
        { t with current_row := min (t.current_row + 1) (t.nodes.length - 1) }).current_row <
      (EditorState.update_text_buffer
        { t with current_row := min (t.current_row + 1) (t.nodes.length - 1) }).nodes.length
    rw [update_text_buffer_nodes, update_text_buffer_current_row]
    exact lt_of_le_of_lt (Nat.min_le_right _ _) (Nat.sub_lt hpos Nat.one_pos)

/-- Claim C8 (amended): the row invariant is preserved by `cursor_down`
(which clamps), and by `set_row` exactly when the requested row is in bounds;
`set_row` itself performs no clamping. -/
theorem c8_amended :
    (∀ s : EditorState, rowInvariant s → rowInvariant (EditorState.cursor_down s)) ∧
    (∀ (s : EditorState) (r : Nat), r < s.nodes.length →
      rowInvariant (EditorState.set_row s r)) := by
  constructor
  · intro s h
    unfold EditorState.cursor_down
    split
    · exact fun hne => h hne
    · exact cursor_down_step_invariant _
  · intro s r hr _
    exact hr

/-- Claim C8 (amended, witness): setting the row to 0 on a one-block document
keeps the invariant. -/
theorem c8_witness : rowInvariant (EditorState.set_row c8_wstate 0) :=
  c8_amended.2 c8_wstate 0 (by decide)

/-- Claim C9 (counterexample): cursor-down at the last row of the last block
is not unconditionally a no-op — with a pending edit (`dirty`) whose
reconciliation shrinks the node list, `current_row` changes. -/
theorem c9_counterexample :
    c9_state.text_buffer.cursor_row = (bufferLines c9_state.text_buffer).length - 1 ∧
    c9_state.current_row = c9_state.nodes.length - 1 ∧
    (EditorState.cursor_down c9_state).current_row ≠ c9_state.current_row := by
  decide

/-- Claim C9 (amended): with no pending edit (`dirty = false`), cursor-down at
the last row of the buffer while on the last block leaves `current_row`
unchanged. -/
theorem c9_amended (s : EditorState) (hd : s.dirty = false)
    (hrow : s.text_buffer.cursor_row = (bufferLines s.text_buffer).length - 1)
    (hcr : s.current_row = s.nodes.length - 1) :
    (EditorState.cursor_down s).current_row = s.current_row := by
  unfold EditorState.cursor_down
  rw [hrow, if_neg (Nat.lt_irrefl _), hd]
  simp only [Bool.false_eq_true, if_false, hcr, if_pos]

/-- Claim C9 (amended, witness): on the clean two-block document, cursor-down
on the last row of the last block keeps `current_row` at 1. -/
theorem c9_witness : (EditorState.cursor_down c9_wstate).current_row = c9_wstate.current_row :=
  c9_amended c9_wstate (by decide) (by decide) (by decide)

/-- Claim C10 (witness): a concrete scroll sequence on a three-line help text
stays within bounds. -/
theorem c10_witness :
    (applyHelpScrolls c10_wstate [.down 100, .up 3, .down 1]).scrollbar_position ≤
      rustLinesCount (applyHelpScrolls c10_wstate [.down 100, .up 3, .down 1]).text :=
  c10_scroll_bounds c10_wstate _ (by decide)

end Basalt
